import Mathlib

set_option maxRecDepth 20000
set_option maxHeartbeats 1000000

/- Verification of the `opt` package (FallenTaters/opt): a shallow embedding of
src/option.go, the generic Option[T] container that participates in the
database/sql scanning protocol, JSON marshalling, and debug rendering.

Modelling conventions:
- Destination (contained) types T are drawn from the universe `DstTy`, which covers
  the types the coercion engine distinguishes: string, []byte, bool, any, time.Time,
  every signed/unsigned integer and float width, nested pointer types, concrete
  types implementing sql.Scanner (carrying their Scan behaviour as a function), and
  non-empty interface types (assumed, like sql.Scanner, not to be implemented by
  any driver value type).
- Source values are the driver.Value universe `Src`: nil, int64, float64, bool,
  []byte, string, time.Time.  A float64 value is modelled by its canonical
  strconv.FormatFloat(v, 'g', -1, 64) rendering (an injective representation);
  a []byte value by its character content; a time.Time value by its renderings
  (RFC3339Nano format, fmt %v format, fmt %#v format).
- Go errors relevant to scanning are the inductive types `GoErr` (strconv errors)
  and `ScanErr` (errors produced by scanAssign); each carries exactly the data its
  fmt.Errorf format string interpolates, and `ScanErr.message` renders the exact
  message text. -/

/- ----------------------------------------------------------------- -/
/- Basic string helpers                                              -/
/- ----------------------------------------------------------------- -/

/-- The double-quote character (used to build Go %q renderings). -/
def qmark : Char := Char.ofNat 34

/-- The backslash character. -/
def bslash : Char := Char.ofNat 92

/-- Model of Go strconv.Quote on one character: the common escapes; printable
ASCII is kept as-is.  (Go also emits \x and \u escapes for non-printable and
non-ASCII runes; those never occur in the values exercised here.) -/
def goQuoteChar (c : Char) : String :=
  if c = qmark then String.mk [bslash, qmark]
  else if c = bslash then String.mk [bslash, bslash]
  else if c = Char.ofNat 10 then String.mk [bslash, Char.ofNat 110]
  else if c = Char.ofNat 9 then String.mk [bslash, Char.ofNat 116]
  else if c = Char.ofNat 13 then String.mk [bslash, Char.ofNat 114]
  else String.singleton c

/-- Model of Go %q formatting of a string or byte slice (strconv.Quote). -/
def goQuote (s : String) : String :=
  String.singleton qmark ++ String.join (s.toList.map goQuoteChar) ++ String.singleton qmark

/-- The characters after the last slash of a character list, or none when the
list has no slash (models the strings.LastIndex(path, "/") idiom). -/
def afterLastSlash : List Char → Option (List Char)
  | [] => none
  | c :: rest =>
    match afterLastSlash rest with
    | some suf => some suf
    | none => if c = '/' then some rest else none

/-- The last slash-separated segment of a package path (Go's %T prints a named
type as pkgname.Name; the package name is the last path segment). -/
def pkgShort (path : String) : String :=
  match afterLastSlash path.toList with
  | some suf => String.mk suf
  | none => path

/- ----------------------------------------------------------------- -/
/- Go error values produced by strconv                               -/
/- ----------------------------------------------------------------- -/

/-- Model of the Go error values seen by the coercion engine's numeric parsing:
strconv.ErrSyntax, strconv.ErrRange, and the *strconv.NumError wrapper that
ParseInt/ParseUint/ParseFloat return around them. -/
inductive GoErr where
  | errSyn
  | errRange
  | numError (fn num : String) (inner : GoErr)
  deriving DecidableEq

/-- The Error() string of a modelled Go error. -/
def GoErr.errorString : GoErr → String
  | .errSyn => "invalid syntax"
  | .errRange => "value out of range"
  | .numError fn num inner =>
    "strconv." ++ fn ++ ": parsing " ++ goQuote num ++ ": " ++ inner.errorString

/-- Copy of strconvErr (src/option.go lines 378-383): unwrap a *strconv.NumError
to its inner error; any other error is returned unchanged. -/
def strconvErr : GoErr → GoErr
  | .numError _ _ inner => inner
  | e => e

/- ----------------------------------------------------------------- -/
/- strconv parsing models                                            -/
/- ----------------------------------------------------------------- -/

/-- The numeric value of a decimal digit character, or none. -/
def digVal (c : Char) : Option Nat :=
  if c.isDigit then some (c.toNat - 48) else none

/-- Accumulate decimal digits into a Nat; none on any non-digit. -/
def digitsAcc : List Char → Nat → Option Nat
  | [], acc => some acc
  | c :: cs, acc =>
    match digVal c with
    | none => none
    | some d => digitsAcc cs (acc * 10 + d)

/-- A non-empty all-decimal-digit list as a Nat, none otherwise. -/
def digitsToNat? : List Char → Option Nat
  | [] => none
  | cs => digitsAcc cs 0

/-- Model of strconv.ParseUint(s, 10, bits): no sign allowed, decimal digits
only, range-checked against 2^bits.  (Go also returns a clamped value together
with a range error; only the error identity matters to the engine.) -/
def goParseUint (s : String) (bits : Nat) : Except GoErr Nat :=
  match digitsToNat? s.toList with
  | none => .error (.numError "ParseUint" s .errSyn)
  | some un =>
    if un ≥ 2 ^ bits then .error (.numError "ParseUint" s .errRange)
    else .ok un

/-- Model of strconv.ParseInt(s, 10, bits): optional sign, decimal digits,
range-checked against the signed cutoff 2^(bits-1). -/
def goParseInt (s : String) (bits : Nat) : Except GoErr Int :=
  if s = "" then .error (.numError "ParseInt" s .errSyn)
  else
    let signed :=
      match s.toList with
      | '-' :: rest => (true, rest)
      | '+' :: rest => (false, rest)
      | cs => (false, cs)
    match digitsToNat? signed.2 with
    | none => .error (.numError "ParseInt" s .errSyn)
    | some un =>
      let cutoff := 2 ^ (bits - 1)
      if !signed.1 && un ≥ cutoff then .error (.numError "ParseInt" s .errRange)
      else if signed.1 && un > cutoff then .error (.numError "ParseInt" s .errRange)
      else .ok (if signed.1 then -(un : Int) else (un : Int))

/-- Lower-case a string (ASCII; models strings.ToLower as used for float
specials). -/
def lowerStr (s : String) : String := String.mk (s.toList.map Char.toLower)

/-- The special float forms strconv.ParseFloat accepts: optionally signed
inf / infinity / nan, case-insensitively. -/
def isSpecialFloat (s : String) : Bool :=
  ["inf", "+inf", "-inf", "infinity", "+infinity", "-infinity",
   "nan", "+nan", "-nan"].contains (lowerStr s)

/-- Strip one leading sign character. -/
def stripSign : List Char → List Char
  | '+' :: cs => cs
  | '-' :: cs => cs
  | cs => cs

/-- Split a character list at the first 'e' or 'E' (mantissa, exponent part). -/
def splitAtExpChar : List Char → List Char × Option (List Char)
  | [] => ([], none)
  | c :: cs =>
    if c = 'e' ∨ c = 'E' then ([], some cs)
    else
      let r := splitAtExpChar cs
      (c :: r.1, r.2)

/-- Split a character list at the first dot (integer part, fraction part). -/
def splitAtDot : List Char → List Char × Option (List Char)
  | [] => ([], none)
  | c :: cs =>
    if c = '.' then ([], some cs)
    else
      let r := splitAtDot cs
      (c :: r.1, r.2)

/-- All characters are decimal digits. -/
def allDigits (cs : List Char) : Bool := cs.all Char.isDigit

/-- Parse a decimal exponent with optional sign. -/
def parseExp (cs : List Char) : Option Int :=
  match cs with
  | '+' :: ds => (digitsToNat? ds).map Int.ofNat
  | '-' :: ds => (digitsToNat? ds).map (fun n => -(n : Int))
  | ds => (digitsToNat? ds).map Int.ofNat

/-- From integer-part digits, fraction digits and an exponent, whether the
mantissa is zero and the decimal exponent of the first significant digit
(value magnitude is in [10^(e-1), 10^e)). -/
def floatMag (ip fp : List Char) (e : Int) : Bool × Int :=
  let all := ip ++ fp
  let lead := (all.takeWhile (fun c => c = '0')).length
  (lead = all.length, e + Int.ofNat ip.length - Int.ofNat lead)

/-- Decimal float syntax check (after sign stripping): digits with at most one
dot and at least one digit, then an optional well-formed exponent.  Returns
(mantissa is zero, decimal magnitude exponent), or none on bad syntax. -/
def decFloatParts (cs : List Char) : Option (Bool × Int) :=
  let me := splitAtExpChar cs
  let ipfp := splitAtDot me.1
  let ip := ipfp.1
  let fp := (ipfp.2).getD []
  if !(allDigits ip && allDigits fp) then none
  else if ip.isEmpty && fp.isEmpty then none
  else
    match me.2 with
    | some ecs =>
      match parseExp ecs with
      | none => none
      | some e => some (floatMag ip fp e)
    | none => some (floatMag ip fp 0)

/-- A hexadecimal digit. -/
def isHexDig (c : Char) : Bool :=
  c.isDigit || ('a' ≤ c && c ≤ 'f') || ('A' ≤ c && c ≤ 'F')

/-- Hex float syntax (after the 0x prefix): hex digits with at most one dot and
at least one digit, then a mandatory binary exponent p±ddd.  The magnitude of
hex floats is not range-checked by this model (treated as in range). -/
def hexFloatParts (cs : List Char) : Option (Bool × Int) :=
  let mp :=
    match cs.span (fun c => !(c = 'p' ∨ c = 'P')) with
    | (m, _ :: e) => some (m, e)
    | (_, []) => none
  match mp with
  | none => none
  | some (m, e) =>
    let ipfp := splitAtDot m
    let ip := ipfp.1
    let fp := (ipfp.2).getD []
    if !(ip.all isHexDig && fp.all isHexDig) then none
    else if ip.isEmpty && fp.isEmpty then none
    else
      match parseExp e with
      | none => none
      | some _ => some ((ip ++ fp).all (fun c => c = '0'), 0)

/-- The overflow decimal-exponent bound per float bit width (coarse: the exact
half-ULP boundary of IEEE round-to-nearest is not modelled; inputs within one
decade of the boundary may be classified differently than by Go). -/
def overflowExp (bits : Nat) : Int := if bits = 32 then 39 else 309

/-- The underflow decimal-exponent bound per float bit width (coarse, as
above). -/
def underflowExp (bits : Nat) : Int := if bits = 32 then -45 else -323

/-- Model of strconv.ParseFloat(s, bits).  The parsed value is modelled by the
input string itself (the engine never inspects the parsed value except to store
it); the error behaviour follows Go: empty or malformed input is a syntax
error, magnitudes beyond the width's range are range errors (coarsely, see
`overflowExp`). -/
def goParseFloat (s : String) (bits : Nat) : Except GoErr String :=
  if s = "" then .error (.numError "ParseFloat" s .errSyn)
  else if isSpecialFloat s then .ok s
  else
    let cs := stripSign s.toList
    let parts :=
      match cs with
      | '0' :: 'x' :: rest => hexFloatParts rest
      | '0' :: 'X' :: rest => hexFloatParts rest
      | _ => decFloatParts cs
    match parts with
    | none => .error (.numError "ParseFloat" s .errSyn)
    | some (allZero, effExp) =>
      if allZero then .ok s
      else if effExp > overflowExp bits then .error (.numError "ParseFloat" s .errRange)
      else if effExp < underflowExp bits then .error (.numError "ParseFloat" s .errRange)
      else .ok s

/-- Model of strconv.ParseBool (accepted forms are exact). -/
def goParseBool (s : String) : Option Bool :=
  if ["1", "t", "T", "TRUE", "true", "True"].contains s then some true
  else if ["0", "f", "F", "FALSE", "false", "False"].contains s then some false
  else none

/- ----------------------------------------------------------------- -/
/- The driver.Value universe                                         -/
/- ----------------------------------------------------------------- -/

/-- A time.Time instant, modelled by the three renderings the engine and the
debug printer use: Format(time.RFC3339Nano), the fmt %v rendering, and the
fmt %#v rendering. -/
structure GoTime where
  rfc3339nano : String
  vFormat : String
  goLit : String
  deriving DecidableEq

/-- The zero time.Time value. -/
def GoTime.zero : GoTime :=
  ⟨"0001-01-01T00:00:00Z",
   "0001-01-01 00:00:00 +0000 UTC",
   "time.Time\x7bwall:0x0, ext:0, loc:(*time.Location)(nil)\x7d"⟩

/-- The driver.Value universe: the dynamically-typed source values the
database/sql protocol passes to Scan.  int64 is modelled by Int (driver values
are in range by construction), float64 by its FormatFloat('g', -1, 64)
rendering, []byte by its character content. -/
inductive Src where
  | nil
  | int (n : Int)
  | float (g : String)
  | bool (b : Bool)
  | bytes (b : String)
  | str (s : String)
  | time (t : GoTime)
  deriving DecidableEq

/-- The %T rendering of a source value's dynamic type. -/
def srcTyStr : Src → String
  | .nil => "<nil>"
  | .int _ => "int64"
  | .float _ => "float64"
  | .bool _ => "bool"
  | .bytes _ => "[]uint8"
  | .str _ => "string"
  | .time _ => "time.Time"

/-- Copy of asString (src/option.go lines 334-355): string and []byte directly,
then by reflective kind: int64 via FormatInt, float64 via FormatFloat 'g', bool
via FormatBool; anything else (here: time.Time, nil) via fmt.Sprintf("%v").
(Driver values contain no unsigned kinds, so the Uint arm has no inhabitant in
this universe.) -/
def asString : Src → String
  | .str s => s
  | .bytes b => b
  | .int n => toString n
  | .float g => g
  | .bool b => if b then "true" else "false"
  | .time tm => tm.vFormat
  | .nil => "<nil>"

/- ----------------------------------------------------------------- -/
/- The destination type universe and destination values              -/
/- ----------------------------------------------------------------- -/

/-- The signed integer kinds (reflect.Int .. reflect.Int64); Go's int is 64-bit
on the targets in question. -/
inductive IntW where
  | i
  | i8
  | i16
  | i32
  | i64
  deriving DecidableEq

/-- reflect.Type.Bits() of the kind. -/
def IntW.bits : IntW → Nat
  | .i => 64
  | .i8 => 8
  | .i16 => 16
  | .i32 => 32
  | .i64 => 64

/-- The reflect.Kind String() of the kind (also its type name). -/
def IntW.kindName : IntW → String
  | .i => "int"
  | .i8 => "int8"
  | .i16 => "int16"
  | .i32 => "int32"
  | .i64 => "int64"

/-- The unsigned integer kinds. -/
inductive UintW where
  | u
  | u8
  | u16
  | u32
  | u64
  deriving DecidableEq

/-- reflect.Type.Bits() of the kind. -/
def UintW.bits : UintW → Nat
  | .u => 64
  | .u8 => 8
  | .u16 => 16
  | .u32 => 32
  | .u64 => 64

/-- The reflect.Kind String() of the kind. -/
def UintW.kindName : UintW → String
  | .u => "uint"
  | .u8 => "uint8"
  | .u16 => "uint16"
  | .u32 => "uint32"
  | .u64 => "uint64"

/-- The float kinds. -/
inductive FloatW where
  | f32
  | f64
  deriving DecidableEq

/-- reflect.Type.Bits() of the kind. -/
def FloatW.bits : FloatW → Nat
  | .f32 => 32
  | .f64 => 64

/-- The reflect.Kind String() of the kind. -/
def FloatW.kindName : FloatW → String
  | .f32 => "float32"
  | .f64 => "float64"

/-- The universe of contained types T the embedding covers.  A `scanner` is a
concrete type implementing sql.Scanner (its Scan behaviour carried as a
function from the source value to either an error message or its new state,
states abstracted as Nat); an `iface` is a non-empty interface type such as
sql.Scanner itself, assumed (as holds for sql.Scanner) not to be implemented by
any driver value type. -/
inductive DstTy where
  | str
  | bytes
  | boolean
  | anyT
  | timeT
  | intT (w : IntW)
  | uintT (w : UintW)
  | floatT (w : FloatW)
  | ptr (e : DstTy)
  | scanner (pkgPath nm : String) (scan : Src → Except String Nat)
  | iface (pkgPath nm : String)

/-- The %T rendering of the type itself. -/
def DstTy.tStr : DstTy → String
  | .str => "string"
  | .bytes => "[]uint8"
  | .boolean => "bool"
  | .anyT => "interface \x7b\x7d"
  | .timeT => "time.Time"
  | .intT w => w.kindName
  | .uintT w => w.kindName
  | .floatT w => w.kindName
  | .ptr e => "*" ++ e.tStr
  | .scanner p n _ => pkgShort p ++ "." ++ n
  | .iface p n => pkgShort p ++ "." ++ n

/-- reflect.Type.Name(): empty for unnamed composite types ([]byte, pointers,
the empty interface). -/
def DstTy.rName : DstTy → String
  | .str => "string"
  | .bytes => ""
  | .boolean => "bool"
  | .anyT => ""
  | .timeT => "Time"
  | .intT w => w.kindName
  | .uintT w => w.kindName
  | .floatT w => w.kindName
  | .ptr _ => ""
  | .scanner _ n _ => n
  | .iface _ n => n

/-- reflect.Type.PkgPath(): empty for builtins and unnamed types. -/
def DstTy.rPkgPath : DstTy → String
  | .timeT => "time"
  | .scanner p _ _ => p
  | .iface p _ => p
  | _ => ""

/-- Whether the type's reflect Kind is Interface. -/
def DstTy.isIface : DstTy → Bool
  | .anyT => true
  | .iface _ _ => true
  | _ => false

/-- The values a destination slot can hold.  `anyV` holds the dynamic value of
an `any` slot (none is the nil interface); `ifaceV` models a value of a
non-empty interface type by its %#v rendering; `scannerV` is the abstract state
of a scanner type; `ptr` is none when nil. -/
inductive GoVal where
  | str (s : String)
  | bytes (b : String)
  | bool (b : Bool)
  | int (w : IntW) (n : Int)
  | uint (w : UintW) (n : Nat)
  | float (w : FloatW) (g : String)
  | time (t : GoTime)
  | anyV (v : Option Src)
  | ifaceV (r : Option String)
  | ptr (v : Option GoVal)
  | scannerV (st : Nat)

/-- The zero value of each contained type (a []byte zero value is the nil
slice, modelled like the empty byte string). -/
def zeroVal : DstTy → GoVal
  | .str => .str ""
  | .bytes => .bytes ""
  | .boolean => .bool false
  | .anyT => .anyV none
  | .timeT => .time GoTime.zero
  | .intT w => .int w 0
  | .uintT w => .uint w 0
  | .floatT w => .float w "0"
  | .ptr _ => .ptr none
  | .scanner _ _ _ => .scannerV 0
  | .iface _ _ => .ifaceV none

/- ----------------------------------------------------------------- -/
/- Scan errors                                                       -/
/- ----------------------------------------------------------------- -/

/-- The errors scanAssign can return, each carrying the data its fmt.Errorf
format interpolates.  `external` is an error propagated verbatim from a
destination type's own sql.Scanner implementation (its message is the wrapped
string itself); the other constructors are the engine's own errors.
(The "destination not a pointer" / "destination pointer is nil" conditions of
src/option.go lines 239-245 cannot arise in this embedding: Scan always passes
the address of the held value slot and the pointer arm always allocates, so
they have no constructor here.) -/
inductive ScanErr where
  | external (msg : String)
  | boolConvStr (s : String)
  | boolConvInt (n : Int)
  | boolConvOther (v ty : String)
  | convertingNull (kind : String)
  | parseFail (srcTy s kind : String) (reason : GoErr)
  | unsupported (srcTy destTy : String)
  deriving DecidableEq

/-- The exact Error() message of each scan error. -/
def ScanErr.message : ScanErr → String
  | .external m => m
  | .boolConvStr s => "sql/driver: couldn't convert " ++ goQuote s ++ " into type bool"
  | .boolConvInt n => "sql/driver: couldn't convert " ++ toString n ++ " into type bool"
  | .boolConvOther v ty => "sql/driver: couldn't convert " ++ v ++ " (" ++ ty ++ ") into type bool"
  | .convertingNull kind => "converting NULL to " ++ kind ++ " is unsupported"
  | .parseFail srcTy s kind reason =>
    "converting driver.Value type " ++ srcTy ++ " (" ++ goQuote s ++ ") to a "
      ++ kind ++ ": " ++ reason.errorString
  | .unsupported srcTy destTy =>
    "unsupported Scan, storing driver.Value type " ++ srcTy ++ " into type " ++ destTy

/-- True exactly on the engine's "converting NULL to %s is unsupported"
errors. -/
def ScanErr.isConvNull : ScanErr → Bool
  | .convertingNull _ => true
  | _ => false

/-- Model of database/sql/driver's Bool.ConvertValue: bool directly; string and
[]byte via ParseBool; integer kinds accept exactly 0 and 1; anything else (here
float64, time.Time, nil) fails with the generic message. -/
def driverBool : Src → Except ScanErr Bool
  | .bool b => .ok b
  | .str s =>
    match goParseBool s with
    | some b => .ok b
    | none => .error (.boolConvStr s)
  | .bytes b =>
    match goParseBool b with
    | some v => .ok v
    | none => .error (.boolConvStr b)
  | .int n => if n = 1 ∨ n = 0 then .ok (n == 1) else .error (.boolConvInt n)
  | .float g => .error (.boolConvOther g "float64")
  | .time tm => .error (.boolConvOther tm.vFormat "time.Time")
  | .nil => .error (.boolConvOther "<nil>" "<nil>")

/- ----------------------------------------------------------------- -/
/- The coercion engine                                               -/
/- ----------------------------------------------------------------- -/

/-- Copy of scanAssign (src/option.go lines 167-331), merged per
(destination type, source value) pair; each arm is annotated with the source
path it takes.  The function returns the new contents of the destination slot
or the error.  The reflective "directly assignable" and "same kind and
convertible" arms (lines 252-265) collapse onto the concrete-type arms below
because this universe contains no user-defined named types: a source type is
assignable to a destination exactly when the types are equal. -/
def scanAssign : DstTy → Src → Except ScanErr GoVal
  -- destination *string
  | .str, .str s => .ok (.str s)                      -- fast path: string → *string
  | .str, .bytes b => .ok (.str b)                    -- fast path: []byte → *string
  | .str, .time tm => .ok (.str tm.rfc3339nano)       -- fast path: time → *string, RFC3339Nano
  | .str, .nil => .error (.convertingNull "string")   -- reflective String arm, src == nil
  | .str, src => .ok (.str (asString src))            -- dest switch *string: bool/int/float kinds
  -- destination *[]byte
  | .bytes, .str s => .ok (.bytes s)                  -- fast path: string → *[]byte
  | .bytes, .bytes b => .ok (.bytes b)                -- fast path: []byte → *[]byte (bytes.Clone)
  | .bytes, .time tm => .ok (.bytes tm.rfc3339nano)   -- fast path: time → *[]byte, RFC3339Nano
  | .bytes, .nil => .error (.unsupported "<nil>" "*[]uint8")  -- falls through to the final error
  | .bytes, src => .ok (.bytes (asString src))        -- dest switch *[]byte via asBytes
  -- destination *bool: delegate to driver.Bool.ConvertValue
  | .boolean, src => (driverBool src).map GoVal.bool
  -- destination *any
  | .anyT, .bytes b => .ok (.anyV (some (.bytes b)))  -- fast path: []byte → *any (bytes.Clone)
  | .anyT, .nil => .ok (.anyV none)                   -- dest switch *any: *d = src (nil)
  | .anyT, src => .ok (.anyV (some src))              -- dest switch *any: *d = src
  -- destination *time.Time
  | .timeT, .time tm => .ok (.time tm)                -- fast path: time → *time.Time
  | .timeT, src => .error (.unsupported (srcTyStr src) "*time.Time")  -- no reflective arm matches
  -- destination implements sql.Scanner: delegate entirely (lines 235-237)
  | .scanner _ _ f, src => ((f src).map GoVal.scannerV).mapError ScanErr.external
  -- destination is a non-empty interface type: no arm matches (src types do not
  -- implement it), falls through to the final error
  | .iface p n, src => .error (.unsupported (srcTyStr src) ("*" ++ DstTy.tStr (.iface p n)))
  -- integer kinds (lines 280-291)
  | .intT w, .nil => .error (.convertingNull w.kindName)
  | .intT w, .int n =>
    if w = .i64 then .ok (.int w n)                   -- int64 directly assignable to int64
    else
      match goParseInt (asString (Src.int n)) w.bits with
      | .ok v => .ok (.int w v)
      | .error ne =>
        .error (.parseFail (srcTyStr (Src.int n)) (asString (Src.int n)) w.kindName (strconvErr ne))
  | .intT w, src =>
    match goParseInt (asString src) w.bits with
    | .ok v => .ok (.int w v)
    | .error ne => .error (.parseFail (srcTyStr src) (asString src) w.kindName (strconvErr ne))
  -- unsigned kinds (lines 292-303)
  | .uintT w, .nil => .error (.convertingNull w.kindName)
  | .uintT w, src =>
    match goParseUint (asString src) w.bits with
    | .ok v => .ok (.uint w v)
    | .error ne => .error (.parseFail (srcTyStr src) (asString src) w.kindName (strconvErr ne))
  -- float kinds (lines 304-315)
  | .floatT w, .nil => .error (.convertingNull w.kindName)
  | .floatT .f64, .float f => .ok (.float .f64 f)     -- float64 directly assignable to float64
  | .floatT w, src =>
    match goParseFloat (asString src) w.bits with
    | .ok r => .ok (.float w r)
    | .error ne => .error (.parseFail (srcTyStr src) (asString src) w.kindName (strconvErr ne))
  -- pointer destinations (lines 272-279): nil zeroes the slot, anything else
  -- allocates a fresh target and recurses with the same source
  | .ptr _, .nil => .ok (.ptr none)
  | .ptr e, src => (scanAssign e src).map (fun v => .ptr (some v))

/- ----------------------------------------------------------------- -/
/- The Option container                                              -/
/- ----------------------------------------------------------------- -/

/-- The Option[T] container (src/option.go lines 24-27). -/
structure GoOption (α : Type) where
  V : α
  Valid : Bool
  deriving DecidableEq

/-- Copy of New (lines 30-32): the zero-valued, absent instance. -/
def New (α : Type) [Inhabited α] : GoOption α := ⟨default, false⟩

/-- Copy of From (lines 35-40): a present instance wrapping v. -/
def From {α : Type} (v : α) : GoOption α := ⟨v, true⟩

/-- Copy of FromPtr (lines 45-54): absent on nil, else present with the
pointed-at value (a Go *T is modelled as Option α). -/
def FromPtr {α : Type} [Inhabited α] : Option α → GoOption α
  | none => ⟨default, false⟩
  | some v => ⟨v, true⟩

/-- Copy of Ptr (lines 57-64): nil when absent, else a pointer to a copy of the
held value. -/
def GoOption.Ptr {α : Type} (o : GoOption α) : Option α :=
  if o.Valid then some o.V else none

/-- Copy of IsNull (lines 106-108). -/
def GoOption.IsNull {α : Type} (o : GoOption α) : Bool := !o.Valid

/-- The zero Option[T] instance at a modelled contained type (what New[T]()
and Option[T]{} produce). -/
def newAt (t : DstTy) : GoOption GoVal := ⟨zeroVal t, false⟩

/-- Copy of Scan (src/option.go lines 147-161): full reset to the zero
instance, return nil on the nil signal, otherwise mark Valid and delegate to
scanAssign.  Returns the new container and the error.  The prior state o is
discarded by the reset; on a coercion error the value slot is modelled as the
reset zero value (the Go slot's contents after a failed scanAssign are
documented as unreliable and are never read by the claims). -/
def optScan (t : DstTy) (o : GoOption GoVal) (data : Src) : GoOption GoVal × Option ScanErr :=
  if data = Src.nil then (⟨zeroVal t, false⟩, none)
  else
    match scanAssign t data with
    | .ok v => (⟨v, true⟩, none)
    | .error e => (⟨zeroVal t, true⟩, some e)

/-- Copy of UnmarshalJSON (src/option.go lines 120-135): full reset; empty
input or the null token leaves the container absent with no error; otherwise
the container is marked Valid and decoding into the held slot is delegated to
the external json.Unmarshal, modelled by the collaborator parameter dec.  On a
decoder error the value slot is modelled as the reset zero value. -/
def UnmarshalJSON (t : DstTy) (dec : String → Except String GoVal)
    (o : GoOption GoVal) (data : String) : GoOption GoVal × Option String :=
  if data = "" ∨ data = "null" then (⟨zeroVal t, false⟩, none)
  else
    match dec data with
    | .ok v => (⟨v, true⟩, none)
    | .error e => (⟨zeroVal t, true⟩, some e)

/- ----------------------------------------------------------------- -/
/- Debug rendering                                                   -/
/- ----------------------------------------------------------------- -/

/-- fmt.Sprintf("%T", reflect.New(t).Elem().Interface()): the %T of an
interface{} holding the zero value of t; for the empty interface the held
value is nil, so %T prints <nil>. -/
def zeroTStr : DstTy → String
  | .anyT => "<nil>"
  | t => t.tStr

/-- Copy of getTypeName (src/option.go lines 89-102): the reflect name, or the
%T of a zero value for unnamed types; named types from a multi-segment package
path are prefixed with the last path segment (single-segment package paths,
such as "time", yield the bare name). -/
def getTypeName (t : DstTy) : String :=
  let nm := t.rName
  if nm = "" then zeroTStr t
  else
    match afterLastSlash t.rPkgPath.toList with
    | none => nm
    | some suf => String.mk suf ++ "." ++ nm

/-- One hex digit. -/
def hexDigit (n : Nat) : Char :=
  if n < 10 then Char.ofNat (48 + n) else Char.ofNat (87 + n)

/-- The %#v rendering of one byte: 0xhh. -/
def byteHex (c : Char) : String :=
  String.mk ['0', 'x', hexDigit (c.toNat / 16), hexDigit (c.toNat % 16)]

/-- The %#v rendering of a []byte value. -/
def bytesLit (b : String) : String :=
  "[]byte\x7b" ++ String.intercalate ", " (b.toList.map byteHex) ++ "\x7d"

/-- A Nat in Go %#v unsigned style: 0x hex. -/
def natHex (n : Nat) : String := "0x" ++ String.mk (Nat.toDigits 16 n)

/-- The %#v rendering of a driver value held in an any slot. -/
def srcRepr : Src → String
  | .nil => "<nil>"
  | .int n => toString n
  | .float g => g
  | .bool b => if b then "true" else "false"
  | .bytes b => bytesLit b
  | .str s => goQuote s
  | .time tm => tm.goLit

/-- The fmt %#v rendering of a destination value, as GoString interpolates it.
Pointer values print a machine address and scanner values the struct literal of
their unknown concrete type; neither is modelled (neither occurs in any
theorem below). -/
def goRepr : GoVal → String
  | .str s => goQuote s
  | .bytes b => bytesLit b
  | .bool b => if b then "true" else "false"
  | .int _ n => toString n
  | .uint _ n => natHex n
  | .float _ g => g
  | .time tm => tm.goLit
  | .anyV none => "<nil>"
  | .anyV (some s) => srcRepr s
  | .ifaceV none => "<nil>"
  | .ifaceV (some r) => r
  | .ptr _ => "(*)(<address not modelled>)"
  | .scannerV _ => "(<concrete scanner literal not modelled>)"

/-- Copy of GoString (src/option.go lines 76-87): absent renders as a New call
parameterized by the type name; a present value of an interface type renders
as a From call with the type parameter spelled out (it cannot be inferred from
the value); any other present value renders as a plain From call.  (The
source's t != nil check is vacuous: reflect.TypeOf of the non-nil *T is never
nil.) -/
def GoString (t : DstTy) (o : GoOption GoVal) : String :=
  if !o.Valid then "opt.New[" ++ getTypeName t ++ "]()"
  else if t.isIface then "opt.From[" ++ getTypeName t ++ "](" ++ goRepr o.V ++ ")"
  else "opt.From(" ++ goRepr o.V ++ ")"

/- ----------------------------------------------------------------- -/
/- NullOrZero (prior-revision Option listing embedded in             -/
/- src/option_test.go lines 760-899)                                 -/
/- ----------------------------------------------------------------- -/

/-- The view reflect.ValueOf gives of a held value for the generic zero check:
for an interface-typed T the dynamic value is seen, and a nil dynamic value
yields the invalid Value.  Constructors cover the kinds the claim exercises,
including the non-comparable map and slice kinds. -/
inductive RVal where
  | invalid
  | intV (n : Int)
  | strV (s : String)
  | boolV (b : Bool)
  | mapV (nilp : Bool) (size : Nat)
  | sliceV (nilp : Bool) (len : Nat)
  | ptrV (nilp : Bool)
  deriving DecidableEq

/-- reflect.Value.Kind() == reflect.Invalid. -/
def RVal.isInvalid : RVal → Bool
  | .invalid => true
  | _ => false

/-- reflect.Value.IsZero(): structural zero check per kind; maps, slices and
pointers are zero exactly when nil (an allocated empty map is not zero).  The
invalid arm is unreachable behind the Kind check (reflect would panic). -/
def RVal.isZero : RVal → Bool
  | .invalid => true
  | .intV n => n == 0
  | .strV s => s == ""
  | .boolV b => !b
  | .mapV nilp _ => nilp
  | .sliceV nilp _ => nilp
  | .ptrV nilp => nilp

/-- The prior-revision Option container (unexported fields value/valid),
as listed in src/option_test.go lines 780-810. -/
structure OptionV where
  value : RVal
  valid : Bool
  deriving DecidableEq

/-- Copy of NullOrZero (src/option_test.go lines 797-805): true when null, or
when the reflective view of the held value is invalid or zero. -/
def OptionV.NullOrZero (o : OptionV) : Bool :=
  if !o.valid then true
  else o.value.isInvalid || o.value.isZero

/-- The destination form C3 quantifies over: a string or []byte source carrying
the character content s. -/
def strSrc (isBytes : Bool) (s : String) : Src :=
  if isBytes then Src.bytes s else Src.str s

/-- The %T rendering matching strSrc. -/
def strSrcTy (isBytes : Bool) : String :=
  if isBytes then "[]uint8" else "string"


/- ----------------------------------------------------------------- -/
/- Theorems                                                          -/
/- ----------------------------------------------------------------- -/

/-- C1: for every contained type T and every non-nil source value whose
coercion into T fails, Scan returns an error and afterwards the container is
still marked present (Valid is true, IsNull is false); a full reset to absent
happens only on the nil signal. -/
theorem scan_failure_keeps_present (t : DstTy) (o : GoOption GoVal) (src : Src) (e : ScanErr)
    (hnn : src ≠ Src.nil) (hfail : (optScan t o src).2 = some e) :
    (optScan t o src).1.Valid = true ∧ (optScan t o src).1.IsNull = false := by
  unfold optScan at hfail ⊢
  rw [if_neg hnn] at hfail ⊢
  cases h : scanAssign t src with
  | ok v => rw [h] at hfail; simp at hfail
  | error e2 => exact ⟨rfl, rfl⟩

/-- Witness for C1: scanning the string "hello" into Option[bool] fails with
the driver's bool conversion error, yet the container is marked present. -/
theorem scan_failure_keeps_present_witness :
    (optScan DstTy.boolean (newAt DstTy.boolean) (Src.str "hello")).2 =
      some (ScanErr.boolConvStr "hello") ∧
    (optScan DstTy.boolean (newAt DstTy.boolean) (Src.str "hello")).1.Valid = true :=
  ⟨rfl, (scan_failure_keeps_present DstTy.boolean (newAt DstTy.boolean) (Src.str "hello")
    (ScanErr.boolConvStr "hello") (by decide) rfl).1⟩

/-- C2: for every contained type T and every prior state of the container,
Scan applied to the nil signal returns no error and leaves the container
exactly equal to the freshly constructed absent instance (presence false,
held value the zero value of T). -/
theorem scan_nil_resets_to_absent (t : DstTy) (o : GoOption GoVal) :
    optScan t o Src.nil = (newAt t, none) := by
  unfold optScan newAt
  rw [if_pos rfl]

/-- C3: for every string or []byte source whose numeric parse fails while
scanning into an integer, unsigned, or float destination, the error is exactly
"converting driver.Value type %T (%q) to a %s: %v" with the final component
the strconv.NumError unwrapped to its inner error (not the wrapping error). -/
theorem numeric_parse_error_message :
    (∀ (b : Bool) (s : String) (w : IntW) (ne : GoErr),
      goParseInt s w.bits = .error ne →
      scanAssign (.intT w) (strSrc b s) =
        .error (.parseFail (strSrcTy b) s w.kindName (strconvErr ne)) ∧
      (ScanErr.parseFail (strSrcTy b) s w.kindName (strconvErr ne)).message =
        "converting driver.Value type " ++ strSrcTy b ++ " (" ++ goQuote s ++ ") to a "
          ++ w.kindName ++ ": " ++ (strconvErr ne).errorString) ∧
    (∀ (b : Bool) (s : String) (w : UintW) (ne : GoErr),
      goParseUint s w.bits = .error ne →
      scanAssign (.uintT w) (strSrc b s) =
        .error (.parseFail (strSrcTy b) s w.kindName (strconvErr ne)) ∧
      (ScanErr.parseFail (strSrcTy b) s w.kindName (strconvErr ne)).message =
        "converting driver.Value type " ++ strSrcTy b ++ " (" ++ goQuote s ++ ") to a "
          ++ w.kindName ++ ": " ++ (strconvErr ne).errorString) ∧
    (∀ (b : Bool) (s : String) (w : FloatW) (ne : GoErr),
      goParseFloat s w.bits = .error ne →
      scanAssign (.floatT w) (strSrc b s) =
        .error (.parseFail (strSrcTy b) s w.kindName (strconvErr ne)) ∧
      (ScanErr.parseFail (strSrcTy b) s w.kindName (strconvErr ne)).message =
        "converting driver.Value type " ++ strSrcTy b ++ " (" ++ goQuote s ++ ") to a "
          ++ w.kindName ++ ": " ++ (strconvErr ne).errorString) ∧
    (∀ (fn num : String) (inner : GoErr), strconvErr (.numError fn num inner) = inner) := by
  refine ⟨?_, ?_, ?_, fun _ _ _ => rfl⟩
  · intro b s w ne h
    cases b <;>
      simp only [strSrc, strSrcTy, if_true, if_false, Bool.false_eq_true] <;>
      simp only [scanAssign, asString, srcTyStr, h, ScanErr.message] <;>
      exact ⟨trivial, trivial⟩
  · intro b s w ne h
    cases b <;>
      simp only [strSrc, strSrcTy, if_true, if_false, Bool.false_eq_true] <;>
      simp only [scanAssign, asString, srcTyStr, h, ScanErr.message] <;>
      exact ⟨trivial, trivial⟩
  · intro b s w ne h
    cases b <;>
      simp only [strSrc, strSrcTy, if_true, if_false, Bool.false_eq_true] <;>
      simp only [scanAssign, asString, srcTyStr, h, ScanErr.message] <;>
      exact ⟨trivial, trivial⟩

/-- Witness for C3: Scan("hello") into Option[int64] fails with the exact
reference message, whose final component is the unwrapped "invalid syntax". -/
theorem numeric_parse_error_message_witness :
    scanAssign (.intT .i64) (Src.str "hello") =
      .error (.parseFail "string" "hello" "int64" GoErr.errSyn) ∧
    (ScanErr.parseFail "string" "hello" "int64" GoErr.errSyn).message =
      "converting driver.Value type string (\"hello\") to a int64: invalid syntax" := by
  have h := numeric_parse_error_message.1 false "hello" IntW.i64
    (GoErr.numError "ParseInt" "hello" GoErr.errSyn) rfl
  exact ⟨h.1, h.2⟩

/-- C4: for every destination type implementing sql.Scanner (and matching none
of the engine's earlier fast paths), scanning any non-nil source delegates
entirely to that capability and returns its result as-is, the error value
propagated verbatim; the delegation takes priority over the reflective
fallback (the fallback arms are never consulted for scanner types). -/
theorem scanner_delegation (p n : String) (f : Src → Except String Nat) (src : Src)
    (hnn : src ≠ Src.nil) :
    scanAssign (.scanner p n f) src = ((f src).map GoVal.scannerV).mapError ScanErr.external ∧
    (∀ m, f src = .error m →
      scanAssign (.scanner p n f) src = .error (.external m) ∧
      (ScanErr.external m).message = m) ∧
    (∀ st, f src = .ok st → scanAssign (.scanner p n f) src = .ok (.scannerV st)) := by
  refine ⟨rfl, ?_, ?_⟩
  · intro m hm
    simp only [scanAssign, hm, Except.map, Except.mapError, ScanErr.message]
    exact ⟨trivial, trivial⟩
  · intro st hst
    simp only [scanAssign, hst, Except.map, Except.mapError]

/-- Witness for C4: a scanner whose Scan fails with "boom" has that error
propagated verbatim. -/
theorem scanner_delegation_witness :
    scanAssign (.scanner "database/sql" "NullInt64" (fun _ => Except.error "boom")) (Src.int 0) =
      .error (.external "boom") ∧ (ScanErr.external "boom").message = "boom" :=
  (scanner_delegation "database/sql" "NullInt64" (fun _ => Except.error "boom") (Src.int 0)
    (by decide)).2.1 "boom" rfl

/-- C5: for every type T and value v, From(v) is present and holds exactly v
(even the zero value), FromPtr(nil) is absent, and FromPtr of a non-nil
pointer is present and holds the pointed-at value: presence is determined
solely by the construction form. -/
theorem from_and_fromptr_presence (α : Type) [Inhabited α] (v p : α) :
    (From v).Valid = true ∧ (From v).IsNull = false ∧ (From v).V = v ∧
    (FromPtr (none : Option α)).IsNull = true ∧ FromPtr (none : Option α) = New α ∧
    (FromPtr (some p)).Valid = true ∧ (FromPtr (some p)).V = p :=
  ⟨rfl, rfl, rfl, rfl, rfl, rfl, rfl⟩

/-- C6: NullOrZero is true exactly when the container is null, or is present
with a held value whose reflective view is invalid or structurally zero; in
particular an interface-typed T holding a nil dynamic value counts as zero,
and the reflective check works for the non-comparable map and slice kinds
(nil map/slice is zero, an allocated non-empty map is not). -/
theorem nullorzero_characterization :
    (∀ o : OptionV, o.NullOrZero = true ↔
      (o.valid = false ∨ o.value.isInvalid = true ∨ o.value.isZero = true)) ∧
    (OptionV.mk RVal.invalid true).NullOrZero = true ∧
    (OptionV.mk (RVal.mapV true 0) true).NullOrZero = true ∧
    (OptionV.mk (RVal.mapV false 2) true).NullOrZero = false ∧
    (OptionV.mk (RVal.sliceV true 0) true).NullOrZero = true ∧
    (OptionV.mk (RVal.intV 5) false).NullOrZero = true := by
  refine ⟨?_, rfl, rfl, rfl, rfl, rfl⟩
  intro o
  cases o with
  | mk value valid =>
    cases valid <;> simp [OptionV.NullOrZero]

/-- C7: GoString renders an absent container as a New call parameterized by
the type name (New[int]() renders as "opt.New[int]()"), a present container as
a From call embedding the value's %#v rendering (From(1) renders as
"opt.From(1)"), and for every interface contained type the type parameter is
spelled out explicitly since it cannot be inferred from the value (e.g.
opt.From[sql.Scanner](...)). -/
theorem gostring_rendering :
    GoString (.intT .i) (newAt (.intT .i)) = "opt.New[int]()" ∧
    GoString (.intT .i) (From (GoVal.int .i 1)) = "opt.From(1)" ∧
    (∀ (p n : String) (v : GoVal),
      GoString (.iface p n) (From v) =
        "opt.From[" ++ getTypeName (.iface p n) ++ "](" ++ goRepr v ++ ")") ∧
    GoString (.iface "database/sql" "Scanner")
        (From (GoVal.ifaceV (some "&sql.NullInt64\x7bInt64:0, Valid:false\x7d"))) =
      "opt.From[sql.Scanner](&sql.NullInt64\x7bInt64:0, Valid:false\x7d)" ∧
    (∀ (t : DstTy) (v : GoVal),
      GoString t (GoOption.mk v false) = "opt.New[" ++ getTypeName t ++ "]()") :=
  ⟨rfl, rfl, fun _ _ _ => rfl, rfl, fun _ _ => rfl⟩

/-- C8: for every contained type T and every prior container state,
unmarshalling the empty input or the null token resets the container to absent
with the zero value and no error; any other input marks the container present
and delegates decoding into the held slot to the JSON decoder, whose error is
propagated verbatim. -/
theorem unmarshal_json_behavior (t : DstTy) (dec : String → Except String GoVal)
    (o : GoOption GoVal) (data : String) :
    ((data = "" ∨ data = "null") → UnmarshalJSON t dec o data = (⟨zeroVal t, false⟩, none)) ∧
    (∀ e, ¬(data = "" ∨ data = "null") → dec data = .error e →
      UnmarshalJSON t dec o data = (⟨zeroVal t, true⟩, some e)) ∧
    (∀ v, ¬(data = "" ∨ data = "null") → dec data = .ok v →
      UnmarshalJSON t dec o data = (⟨v, true⟩, none)) := by
  refine ⟨?_, ?_, ?_⟩
  · intro h
    unfold UnmarshalJSON
    rw [if_pos h]
  · intro e hn hd
    unfold UnmarshalJSON
    rw [if_neg hn, hd]
  · intro v hn hd
    unfold UnmarshalJSON
    rw [if_neg hn, hd]

/-- Witness for C8: the null token resets Option[int64] to absent, and a
failing decode of "x" leaves the container present with the decoder's error
propagated verbatim. -/
theorem unmarshal_json_behavior_witness :
    UnmarshalJSON (.intT .i64) (fun _ => Except.error "bad json") (newAt (.intT .i64)) "null" =
      (⟨zeroVal (.intT .i64), false⟩, none) ∧
    UnmarshalJSON (.intT .i64) (fun _ => Except.error "bad json") (newAt (.intT .i64)) "x" =
      (⟨zeroVal (.intT .i64), true⟩, some "bad json") :=
  ⟨(unmarshal_json_behavior (.intT .i64) (fun _ => Except.error "bad json")
      (newAt (.intT .i64)) "null").1 (Or.inr rfl),
   (unmarshal_json_behavior (.intT .i64) (fun _ => Except.error "bad json")
      (newAt (.intT .i64)) "x").2.1 "bad json" (by decide) rfl⟩

/-- C9 counterexample: the claim fails as stated on the constructible container
Option[int]{V: 5, Valid: false} (the fields are exported): Ptr returns nil, and
FromPtr(nil) rebuilds the zero-valued absent container, which is not equal to
the original. -/
theorem ptr_roundtrip_counterexample :
    FromPtr ((GoOption.mk (5 : Int) false).Ptr) ≠ GoOption.mk (5 : Int) false := by
  decide

/-- C9 (amended): for every container whose absent state holds T's zero value
(which is every container the package's constructors and decode paths can
produce), converting to a pointer and back is the identity; in particular every
present container round-trips exactly. -/
theorem ptr_roundtrip_identity (α : Type) [Inhabited α] (o : GoOption α)
    (hinv : o.Valid = false → o.V = default) :
    FromPtr o.Ptr = o := by
  cases o with
  | mk v b =>
    cases b with
    | false =>
      have hv : v = default := hinv rfl
      subst hv
      rfl
    | true => rfl

/-- Witness for C9 (amended): a present container holding 7 round-trips to
itself. -/
theorem ptr_roundtrip_identity_witness :
    FromPtr ((GoOption.mk (7 : Int) true).Ptr) = GoOption.mk (7 : Int) true :=
  ptr_roundtrip_identity Int (GoOption.mk 7 true) (by decide)

/-- For a non-nil source, the pointer arm of scanAssign is the recursion into
the pointee with the same source. -/
theorem scanAssign_ptr_nonnil (t2 : DstTy) (src : Src) (h : src ≠ Src.nil) :
    scanAssign (.ptr t2) src = (scanAssign t2 src).map (fun v => .ptr (some v)) := by
  cases src <;> first | exact absurd rfl h | rfl

/-- For every destination type and non-nil source, a scanAssign failure is
never one of the engine's "converting NULL to %s is unsupported" errors: those
arms require src == nil, and the pointer arm recurses with the same non-nil
source. -/
theorem scanAssign_nonnil_no_convnull : ∀ (t : DstTy) (src : Src), src ≠ Src.nil →
    ∀ e : ScanErr, scanAssign t src = .error e → e.isConvNull = false := by
  intro t
  induction t with
  | str =>
    intro src h e he
    cases src <;> simp only [scanAssign] at he <;>
      first
        | exact absurd rfl h
        | (cases he <;> rfl)
  | bytes =>
    intro src h e he
    cases src <;> simp only [scanAssign] at he <;>
      first
        | exact absurd rfl h
        | (cases he <;> rfl)
  | boolean =>
    intro src h e he
    cases src <;> simp only [scanAssign, driverBool] at he <;>
      (repeat' split at he) <;>
      first
        | exact absurd rfl h
        | (cases he <;> rfl)
  | anyT =>
    intro src h e he
    cases src <;> simp only [scanAssign] at he <;> cases he
  | timeT =>
    intro src h e he
    cases src <;> simp only [scanAssign] at he <;>
      first
        | exact absurd rfl h
        | (cases he <;> rfl)
  | intT w =>
    intro src h e he
    cases src <;> simp only [scanAssign] at he <;>
      (repeat' split at he) <;>
      first
        | exact absurd rfl h
        | (cases he <;> rfl)
  | uintT w =>
    intro src h e he
    cases src <;> simp only [scanAssign] at he <;>
      (repeat' split at he) <;>
      first
        | exact absurd rfl h
        | (cases he <;> rfl)
  | floatT w =>
    intro src h e he
    cases w <;> cases src <;> simp only [scanAssign] at he <;>
      (repeat' split at he) <;>
      first
        | exact absurd rfl h
        | (cases he <;> rfl)
  | ptr t2 ih =>
    intro src h e he
    rw [scanAssign_ptr_nonnil t2 src h] at he
    cases hs : scanAssign t2 src with
    | ok v => rw [hs] at he; simp [Except.map] at he
    | error e2 =>
      rw [hs] at he
      simp only [Except.map, Except.error.injEq] at he
      subst he
      exact ih src h _ hs
  | scanner p n f =>
    intro src h e he
    simp only [scanAssign] at he
    cases hf : f src with
    | ok st => rw [hf] at he; simp [Except.map, Except.mapError] at he
    | error m =>
      rw [hf] at he
      simp only [Except.map, Except.mapError] at he
      cases he <;> rfl
  | iface p n =>
    intro src h e he
    simp only [scanAssign] at he
    cases he <;> rfl

/-- C10: Option's Scan never returns one of the coercion engine's "converting
NULL to %s is unsupported" errors, for any contained type and any input: Scan
intercepts the nil signal and resets the container before the engine runs, and
the engine's src == nil arms are unreachable for non-nil sources. -/
theorem scan_never_converting_null (t : DstTy) (o : GoOption GoVal) (src : Src) (e : ScanErr)
    (h : (optScan t o src).2 = some e) :
    e.isConvNull = false ∧ ∀ k, e ≠ ScanErr.convertingNull k := by
  by_cases hn : src = Src.nil
  · subst hn
    unfold optScan at h
    rw [if_pos rfl] at h
    cases (show (none : Option ScanErr) = some e from h)
  · unfold optScan at h
    rw [if_neg hn] at h
    cases hs : scanAssign t src with
    | ok v =>
      rw [hs] at h
      cases (show (none : Option ScanErr) = some e from h)
    | error e2 =>
      rw [hs] at h
      have h2 : some e2 = some e := h
      injection h2 with h3
      subst h3
      have hf := scanAssign_nonnil_no_convnull t src hn e2 hs
      refine ⟨hf, ?_⟩
      intro k hk
      rw [hk] at hf
      exact absurd hf (by simp [ScanErr.isConvNull])

/-- Witness for C10: a failing scan (string into Option[time.Time]) returns
the unsupported-Scan error, which is not a converting-NULL error. -/
theorem scan_never_converting_null_witness :
    (optScan DstTy.timeT (newAt DstTy.timeT) (Src.str "x")).2 =
      some (ScanErr.unsupported "string" "*time.Time") ∧
    (ScanErr.unsupported "string" "*time.Time").isConvNull = false :=
  ⟨rfl, (scan_never_converting_null DstTy.timeT (newAt DstTy.timeT) (Src.str "x")
    (ScanErr.unsupported "string" "*time.Time") rfl).1⟩
